import Mathlib

/-!
Shallow embedding of the CommonAssessmentTool client subsystem:
the prediction-input encoder (`app/clients/schema.py`), the criteria
filter compiler (`ClientFilters`), and the client service operations
(`app/clients/service/client_service.py`), together with theorems
checking the specified behaviour against this embedding.
-/

namespace CAT

/-- A persisted `Client` row, with the field types declared by the
`ClientBase` / `ClientResponse` pydantic schemas: `gender` is the
`Gender` IntEnum (MALE = 1, FEMALE = 2), the `_bool` assessment fields
are booleans, the scale and count fields integers, and `current_model`
a nullable string reference to a prediction artifact. -/
structure ClientRec where
  id : Nat
  age : Int
  gender : Int
  work_experience : Int
  canada_workex : Int
  dep_num : Int
  canada_born : Bool
  citizen_status : Bool
  level_of_schooling : Int
  fluent_english : Bool
  reading_english_scale : Int
  speaking_english_scale : Int
  writing_english_scale : Int
  numeracy_scale : Int
  computer_scale : Int
  transportation_bool : Bool
  caregiver_bool : Bool
  housing : Int
  income_source : Int
  felony_bool : Bool
  attending_school : Bool
  currently_employed : Bool
  substance_use : Bool
  time_unemployed : Int
  need_mental_health_support_bool : Bool
  current_model : Option String
deriving DecidableEq, Repr

/-- The `PredictionInput` pydantic schema: the 24 assessment features of
a client, with the exact field types the schema declares (booleans and
the three coded enumerations rendered as strings, the rest as ints). -/
structure PredictionInput where
  age : Int
  gender : String
  work_experience : Int
  canada_workex : Int
  dep_num : Int
  canada_born : String
  citizen_status : String
  level_of_schooling : String
  fluent_english : String
  reading_english_scale : Int
  speaking_english_scale : Int
  writing_english_scale : Int
  numeracy_scale : Int
  computer_scale : Int
  transportation_bool : String
  caregiver_bool : String
  housing : String
  income_source : String
  felony_bool : String
  attending_school : String
  currently_employed : String
  substance_use : String
  time_unemployed : Int
  need_mental_health_support_bool : String
deriving DecidableEq, Repr

/-- `bool_to_str` from `PredictionInput.from_client_response`:
`"1" if val else "0"`. -/
def bool_to_str (val : Bool) : String :=
  if val then "1" else "0"

/-- Python truthiness of an int: `bool(v)` is `False` exactly for `0`.
`from_client_response` passes the integer `gender` code (1 or 2)
through `bool_to_str`, so the branch taken is this truthiness test,
not an "is male" comparison. -/
def pyTruthyInt (v : Int) : Bool :=
  v != 0

/-- `PredictionInput.from_client_response` (schema.py lines 50-82),
field by field: booleans through `bool_to_str`; `level_of_schooling`,
`housing`, `income_source` through `str(...)`; `gender` through
`bool_to_str` applied to the integer code (Python truthiness); the
remaining numeric fields passed unchanged. -/
def fromClientResponse (client : ClientRec) : PredictionInput :=
  { age := client.age
    gender := bool_to_str (pyTruthyInt client.gender)
    work_experience := client.work_experience
    canada_workex := client.canada_workex
    dep_num := client.dep_num
    canada_born := bool_to_str client.canada_born
    citizen_status := bool_to_str client.citizen_status
    level_of_schooling := toString client.level_of_schooling
    fluent_english := bool_to_str client.fluent_english
    reading_english_scale := client.reading_english_scale
    speaking_english_scale := client.speaking_english_scale
    writing_english_scale := client.writing_english_scale
    numeracy_scale := client.numeracy_scale
    computer_scale := client.computer_scale
    transportation_bool := bool_to_str client.transportation_bool
    caregiver_bool := bool_to_str client.caregiver_bool
    housing := toString client.housing
    income_source := toString client.income_source
    felony_bool := bool_to_str client.felony_bool
    attending_school := bool_to_str client.attending_school
    currently_employed := bool_to_str client.currently_employed
    substance_use := bool_to_str client.substance_use
    time_unemployed := client.time_unemployed
    need_mental_health_support_bool :=
      bool_to_str client.need_mental_health_support_bool }

/-- A concrete client record matching the example in `ClientBase.Config`
but with `gender = 2` (FEMALE), used to evaluate the encoder. -/
def exampleFemaleClient : ClientRec :=
  { id := 1
    age := 25
    gender := 2
    work_experience := 3
    canada_workex := 2
    dep_num := 1
    canada_born := false
    citizen_status := true
    level_of_schooling := 8
    fluent_english := true
    reading_english_scale := 8
    speaking_english_scale := 7
    writing_english_scale := 7
    numeracy_scale := 8
    computer_scale := 9
    transportation_bool := true
    caregiver_bool := false
    housing := 5
    income_source := 3
    felony_bool := false
    attending_school := false
    currently_employed := false
    substance_use := false
    time_unemployed := 6
    need_mental_health_support_bool := false
    current_model := some "RandomForest" }

/-- The `ClientFilters` criteria record: the 25 optional constructor
arguments of `ClientFilters.__init__` (schema.py lines 251-277), each
`None` by default. -/
structure ClientFilters where
  employment_status : Option Bool := none
  education_level : Option Int := none
  age_min : Option Int := none
  gender : Option Int := none
  work_experience : Option Int := none
  canada_workex : Option Int := none
  dep_num : Option Int := none
  canada_born : Option Bool := none
  citizen_status : Option Bool := none
  fluent_english : Option Bool := none
  reading_english_scale : Option Int := none
  speaking_english_scale : Option Int := none
  writing_english_scale : Option Int := none
  numeracy_scale : Option Int := none
  computer_scale : Option Int := none
  transportation_bool : Option Bool := none
  caregiver_bool : Option Bool := none
  housing : Option Int := none
  income_source : Option Int := none
  felony_bool : Option Bool := none
  attending_school : Option Bool := none
  substance_use : Option Bool := none
  time_unemployed : Option Int := none
  need_mental_health_support_bool : Option Bool := none
  current_model : Option String := none
deriving DecidableEq, Repr

/-- One entry of the `field_map` registry, semantically: reading the
criterion's value from the filters record (`getattr(self, key)`)
yields, when the value is present, the selection predicate the entry
generates for it (`value == getattr(...)` for a column entry,
`value(getattr(...))` for a callable entry). -/
def RegEntry : Type :=
  ClientFilters → Option (ClientRec → Bool)

/-- The `field_map` registry (schema.py lines 279-305), one entry per
key in source order: every entry is an equality predicate on the bound
`Client` column except `age_min`, whose callable generates
`Client.age >= v`. -/
def fieldMap : List RegEntry :=
  [ fun f => f.employment_status.map (fun v c => c.currently_employed == v)
  , fun f => f.age_min.map (fun v c => decide (v ≤ c.age))
  , fun f => f.gender.map (fun v c => c.gender == v)
  , fun f => f.education_level.map (fun v c => c.level_of_schooling == v)
  , fun f => f.work_experience.map (fun v c => c.work_experience == v)
  , fun f => f.canada_workex.map (fun v c => c.canada_workex == v)
  , fun f => f.dep_num.map (fun v c => c.dep_num == v)
  , fun f => f.canada_born.map (fun v c => c.canada_born == v)
  , fun f => f.citizen_status.map (fun v c => c.citizen_status == v)
  , fun f => f.fluent_english.map (fun v c => c.fluent_english == v)
  , fun f => f.reading_english_scale.map (fun v c => c.reading_english_scale == v)
  , fun f => f.speaking_english_scale.map (fun v c => c.speaking_english_scale == v)
  , fun f => f.writing_english_scale.map (fun v c => c.writing_english_scale == v)
  , fun f => f.numeracy_scale.map (fun v c => c.numeracy_scale == v)
  , fun f => f.computer_scale.map (fun v c => c.computer_scale == v)
  , fun f => f.transportation_bool.map (fun v c => c.transportation_bool == v)
  , fun f => f.caregiver_bool.map (fun v c => c.caregiver_bool == v)
  , fun f => f.housing.map (fun v c => c.housing == v)
  , fun f => f.income_source.map (fun v c => c.income_source == v)
  , fun f => f.felony_bool.map (fun v c => c.felony_bool == v)
  , fun f => f.attending_school.map (fun v c => c.attending_school == v)
  , fun f => f.substance_use.map (fun v c => c.substance_use == v)
  , fun f => f.time_unemployed.map (fun v c => c.time_unemployed == v)
  , fun f => f.need_mental_health_support_bool.map
      (fun v c => c.need_mental_health_support_bool == v)
  , fun f => f.current_model.map (fun v c => c.current_model == some v) ]

/-- `ClientFilters.build_filter` (schema.py lines 334-343) over an
arbitrary iteration order of the registry: collect the predicate of
every criterion whose value is not `None`, skipping absent ones. -/
def buildFilterWith (registry : List RegEntry) (f : ClientFilters) :
    List (ClientRec → Bool) :=
  registry.filterMap (fun e => e f)

/-- `ClientFilters.build_filter` with the registry iterated in its
source order. -/
def buildFilter (f : ClientFilters) : List (ClientRec → Bool) :=
  buildFilterWith fieldMap f

/-- The selection `db.query(Client).filter(*filters.build_filter())`
compiles to: a record is selected iff it satisfies every collected
predicate (logical AND). -/
def matchesWith (registry : List RegEntry) (f : ClientFilters)
    (c : ClientRec) : Bool :=
  (buildFilterWith registry f).all (fun p => p c)

/-- Selection under the source registry order. -/
def matchesFilters (f : ClientFilters) (c : ClientRec) : Bool :=
  matchesWith fieldMap f c

/-- The filters record with every criterion absent. -/
def emptyFilters : ClientFilters :=
  {}

/-- Number of criteria whose value is present, in registry order. -/
def presentCount (f : ClientFilters) : Nat :=
  f.employment_status.isSome.toNat + f.age_min.isSome.toNat +
  f.gender.isSome.toNat + f.education_level.isSome.toNat +
  f.work_experience.isSome.toNat + f.canada_workex.isSome.toNat +
  f.dep_num.isSome.toNat + f.canada_born.isSome.toNat +
  f.citizen_status.isSome.toNat + f.fluent_english.isSome.toNat +
  f.reading_english_scale.isSome.toNat + f.speaking_english_scale.isSome.toNat +
  f.writing_english_scale.isSome.toNat + f.numeracy_scale.isSome.toNat +
  f.computer_scale.isSome.toNat + f.transportation_bool.isSome.toNat +
  f.caregiver_bool.isSome.toNat + f.housing.isSome.toNat +
  f.income_source.isSome.toNat + f.felony_bool.isSome.toNat +
  f.attending_school.isSome.toNat + f.substance_use.isSome.toNat +
  f.time_unemployed.isSome.toNat + f.need_mental_health_support_bool.isSome.toNat +
  f.current_model.isSome.toNat

theorem all_filterMap {α β : Type} (g : α → Option β) (p : β → Bool)
    (l : List α) :
    (l.filterMap g).all p = l.all (fun a => ((g a).map p).getD true) := by
  induction l with
  | nil => rfl
  | cons a l ih =>
    cases h : g a <;> simp [List.filterMap_cons, h, ih]

theorem length_filterMap_eq (g : α → Option β) (l : List α) :
    (l.filterMap g).length = (l.map (fun a => (g a).isSome.toNat)).sum := by
  induction l with
  | nil => rfl
  | cons a l ih =>
    cases h : g a
    · simp [List.filterMap_cons, h, ih]
    · simp [List.filterMap_cons, h, ih]
      omega

theorem opt_pred_getD_iff (o : Option α) (q : α → Bool) :
    ((o.map q).getD true = true) ↔ ∀ v, o = some v → q v = true := by
  cases o <;> simp

theorem opt_map_pred_iff (o : Option α) (mk : α → ClientRec → Bool)
    (c : ClientRec) :
    (((o.map mk).map (fun p => p c)).getD true = true) ↔
      ∀ v, o = some v → mk v c = true := by
  cases o <;> simp

theorem all_perm_eq {l m : List α} (h : l.Perm m) (p : α → Bool) :
    l.all p = m.all p := by
  rw [Bool.eq_iff_iff, List.all_eq_true, List.all_eq_true]
  exact ⟨fun hh x hx => hh x (h.mem_iff.mpr hx),
         fun hh x hx => hh x (h.mem_iff.mp hx)⟩

end CAT

/-- C1: the claim states gender code 2 encodes to "0" (the "is male"
interpretation); the code applies `bool_to_str` to the integer code, so
Python truthiness makes gender 2 encode to "1". Evaluated here at a
concrete client with gender = 2: the encoder yields "1", not "0", while
a gender-1 client also yields "1". -/
theorem CAT.gender_code_two_encodes_to_one :
    (CAT.fromClientResponse CAT.exampleFemaleClient).gender = "1" ∧
    (CAT.fromClientResponse CAT.exampleFemaleClient).gender ≠ "0" ∧
    (CAT.fromClientResponse { CAT.exampleFemaleClient with gender := 1 }).gender = "1" := by
  refine ⟨rfl, ?_, rfl⟩
  decide

/-- C2: the compiled selection has exactly one predicate per present
criterion; a record is selected iff it satisfies every per-criterion
condition (their intersection); zero supplied criteria select every
record; and any permutation of the registry yields the same selection. -/
theorem CAT.build_filter_correct (f : CAT.ClientFilters) (c : CAT.ClientRec) :
    (CAT.buildFilter f).length = CAT.presentCount f ∧
    (CAT.matchesFilters f c = true ↔
      ((∀ v, f.employment_status = some v → c.currently_employed = v) ∧
       (∀ v, f.age_min = some v → v ≤ c.age) ∧
       (∀ v, f.gender = some v → c.gender = v) ∧
       (∀ v, f.education_level = some v → c.level_of_schooling = v) ∧
       (∀ v, f.work_experience = some v → c.work_experience = v) ∧
       (∀ v, f.canada_workex = some v → c.canada_workex = v) ∧
       (∀ v, f.dep_num = some v → c.dep_num = v) ∧
       (∀ v, f.canada_born = some v → c.canada_born = v) ∧
       (∀ v, f.citizen_status = some v → c.citizen_status = v) ∧
       (∀ v, f.fluent_english = some v → c.fluent_english = v) ∧
       (∀ v, f.reading_english_scale = some v → c.reading_english_scale = v) ∧
       (∀ v, f.speaking_english_scale = some v → c.speaking_english_scale = v) ∧
       (∀ v, f.writing_english_scale = some v → c.writing_english_scale = v) ∧
       (∀ v, f.numeracy_scale = some v → c.numeracy_scale = v) ∧
       (∀ v, f.computer_scale = some v → c.computer_scale = v) ∧
       (∀ v, f.transportation_bool = some v → c.transportation_bool = v) ∧
       (∀ v, f.caregiver_bool = some v → c.caregiver_bool = v) ∧
       (∀ v, f.housing = some v → c.housing = v) ∧
       (∀ v, f.income_source = some v → c.income_source = v) ∧
       (∀ v, f.felony_bool = some v → c.felony_bool = v) ∧
       (∀ v, f.attending_school = some v → c.attending_school = v) ∧
       (∀ v, f.substance_use = some v → c.substance_use = v) ∧
       (∀ v, f.time_unemployed = some v → c.time_unemployed = v) ∧
       (∀ v, f.need_mental_health_support_bool = some v →
          c.need_mental_health_support_bool = v) ∧
       (∀ v, f.current_model = some v → c.current_model = some v))) ∧
    CAT.matchesFilters CAT.emptyFilters c = true ∧
    (∀ l, l.Perm CAT.fieldMap → CAT.matchesWith l f c = CAT.matchesFilters f c) := by
  refine ⟨?_, ?_, ?_, ?_⟩
  · simp only [CAT.buildFilter, CAT.buildFilterWith, CAT.length_filterMap_eq,
      CAT.fieldMap, List.map_cons, List.map_nil, List.sum_cons, List.sum_nil,
      Option.isSome_map', CAT.presentCount]
    omega
  · rw [show CAT.matchesFilters f c =
        (CAT.buildFilterWith CAT.fieldMap f).all (fun p => p c) from rfl]
    rw [CAT.buildFilterWith, CAT.all_filterMap]
    simp only [CAT.fieldMap, List.all_cons, List.all_nil, Bool.and_eq_true,
      CAT.opt_map_pred_iff, beq_iff_eq, decide_eq_true_iff, and_true]
  · rfl
  · intro l hl
    unfold CAT.matchesFilters CAT.matchesWith CAT.buildFilterWith
    exact CAT.all_perm_eq (hl.filterMap (fun e => e f)) _

/-- Witness for C2: instantiated at a concrete filter and client, with
the reversed registry as the concrete permutation. -/
theorem CAT.build_filter_correct_witness :
    CAT.matchesWith CAT.fieldMap.reverse { age_min := some 21 }
        CAT.exampleFemaleClient =
      CAT.matchesFilters { age_min := some 21 } CAT.exampleFemaleClient :=
  (CAT.build_filter_correct { age_min := some 21 }
      CAT.exampleFemaleClient).2.2.2
    CAT.fieldMap.reverse (List.reverse_perm CAT.fieldMap)

namespace CAT

/-- A persisted `ClientCase` row: composite identity
(client_id, user_id), seven intervention flags, and a success rate. -/
structure CaseRec where
  client_id : Nat
  user_id : Nat
  employment_assistance : Bool
  life_stabilization : Bool
  retention_services : Bool
  specialized_services : Bool
  employment_related_financial_supports : Bool
  employer_financial_supports : Bool
  enhanced_referrals : Bool
  success_rate : Int
deriving DecidableEq, Repr

/-- The committed state of the record store: client rows, case rows,
and the ids of the existing case workers (`User` rows are referenced
by id only). -/
structure Db where
  clients : List ClientRec
  cases : List CaseRec
  users : List Nat
deriving DecidableEq, Repr

/-- A failure surfaced by a service operation. `httpEx` is a raised
`HTTPException` with its status code and detail string; `nameErr`
models a Python `NameError` escaping instead (an unresolved name hit
while evaluating the arguments of a `raise`), which FastAPI surfaces
as an unhandled internal server error, not an `HTTPException`. -/
inductive SvcError where
  | httpEx (statusCode : Nat) (detail : String)
  | nameErr (missingName : String)
deriving DecidableEq, Repr

/-- `db.query(Client).filter(Client.id == client_id).first()`. -/
def findClient (db : Db) (cid : Nat) : Option ClientRec :=
  db.clients.find? (fun c => c.id == cid)

/-- `ClientService.get_client_or_404nf`. -/
def getClientOr404 (db : Db) (cid : Nat) : Except SvcError ClientRec :=
  match findClient db cid with
  | some c => .ok c
  | none =>
    .error (.httpEx 404 ("Client with id " ++ toString cid ++ " not found"))

/-- `ClientService.get_caseworker_or_404nf`. -/
def getCaseworkerOr404 (db : Db) (uid : Nat) : Except SvcError Unit :=
  if db.users.contains uid then .ok ()
  else
    .error (.httpEx 404
      ("Case worker with id " ++ toString uid ++ " not found"))

/-- `db.query(ClientCase).filter_by(client_id=..., user_id=...).first()`. -/
def findCase (db : Db) (cid uid : Nat) : Option CaseRec :=
  db.cases.find? (fun k => k.client_id == cid && k.user_id == uid)

/-- `ClientService.get_case_or_404nf` (client_service.py lines
297-308). On a missing case the `raise` names the bare identifier
`HTTP_404_NOT_FOUND`, which is not defined in the module (the import
is `from fastapi import HTTPException, status`), so evaluating the
`HTTPException(...)` call raises `NameError` instead of the intended
not-found exception. -/
def getCaseOr404nf (db : Db) (cid uid : Nat) : Except SvcError CaseRec :=
  match findCase db cid uid with
  | some k => .ok k
  | none => .error (.nameErr "HTTP_404_NOT_FOUND")

/-- Replace, in place, every element satisfying `p` by its image
under `g` (mutation of a fetched ORM instance inside the list the
store holds; identity keys are unique so at most one row matches). -/
def mapWhere (p : α → Bool) (g : α → α) (l : List α) : List α :=
  l.map (fun x => if p x then g x else x)

/-- `ClientService.delete_client`: 404 when the client is absent;
otherwise the bulk delete of the client's cases and the delete of the
client itself are pending work applied by the single `db.commit()`.
`commitErr = none` models the commit succeeding; `some msg` models the
commit (or flush) raising with message `msg`, upon which the operation
rolls back and re-raises as a 500. The returned `Db` is the committed
state after the operation. -/
def deleteClient (db : Db) (cid : Nat) (commitErr : Option String) :
    Except SvcError Unit × Db :=
  match findClient db cid with
  | none =>
    (.error (.httpEx 404 ("Client with id " ++ toString cid ++ " not found")),
     db)
  | some _ =>
    match commitErr with
    | none =>
      (.ok (),
       { db with
          clients := db.clients.filter (fun c => c.id != cid)
          cases := db.cases.filter (fun k => k.client_id != cid) })
    | some msg =>
      (.error (.httpEx 500 ("Failed to delete client: " ++ msg)), db)

/-- The `ClientCase` row `create_case_assignment` constructs: all seven
intervention flags false and success_rate 0. -/
def newCaseRec (cid uid : Nat) : CaseRec :=
  { client_id := cid
    user_id := uid
    employment_assistance := false
    life_stabilization := false
    retention_services := false
    specialized_services := false
    employment_related_financial_supports := false
    employer_financial_supports := false
    enhanced_referrals := false
    success_rate := 0 }

/-- `ClientService.create_case_assignment` (client_service.py lines
145-184): 404 for a missing client, then 404 for a missing case
worker, then 400 for an existing case for the pair, else add the
default-valued case and commit (rollback and 500 on commit failure). -/
def createCaseAssignment (db : Db) (cid uid : Nat)
    (commitErr : Option String) : Except SvcError CaseRec × Db :=
  match getClientOr404 db cid with
  | .error e => (.error e, db)
  | .ok _ =>
    match getCaseworkerOr404 db uid with
    | .error e => (.error e, db)
    | .ok _ =>
      match findCase db cid uid with
      | some _ =>
        (.error (.httpEx 400
          ("Client " ++ toString cid ++
            " already has a case assigned to case worker " ++ toString uid)),
         db)
      | none =>
        match commitErr with
        | none =>
          (.ok (newCaseRec cid uid),
           { db with cases := db.cases ++ [newCaseRec cid uid] })
        | some msg =>
          (.error (.httpEx 500
            ("Failed to create case assignment: " ++ msg)), db)

end CAT

namespace CAT

/-- The `ClientUpdate` pydantic schema: one optional entry per Client
column; a field absent from the request payload is `none` (pydantic's
`dict(exclude_unset=True)` drops it). -/
structure ClientUpdate where
  age : Option Int := none
  gender : Option Int := none
  work_experience : Option Int := none
  canada_workex : Option Int := none
  dep_num : Option Int := none
  canada_born : Option Bool := none
  citizen_status : Option Bool := none
  level_of_schooling : Option Int := none
  fluent_english : Option Bool := none
  reading_english_scale : Option Int := none
  speaking_english_scale : Option Int := none
  writing_english_scale : Option Int := none
  numeracy_scale : Option Int := none
  computer_scale : Option Int := none
  transportation_bool : Option Bool := none
  caregiver_bool : Option Bool := none
  housing : Option Int := none
  income_source : Option Int := none
  felony_bool : Option Bool := none
  attending_school : Option Bool := none
  currently_employed : Option Bool := none
  substance_use : Option Bool := none
  time_unemployed : Option Int := none
  need_mental_health_support_bool : Option Bool := none
  current_model : Option String := none
deriving DecidableEq, Repr

/-- `ClientService.update_model_instance` applied to a Client: setattr
for every field present in `dict(exclude_unset=True)`, leaving every
other field as it was. -/
def applyClientUpdate (u : ClientUpdate) (c : ClientRec) : ClientRec :=
  { c with
    age := u.age.getD c.age
    gender := u.gender.getD c.gender
    work_experience := u.work_experience.getD c.work_experience
    canada_workex := u.canada_workex.getD c.canada_workex
    dep_num := u.dep_num.getD c.dep_num
    canada_born := u.canada_born.getD c.canada_born
    citizen_status := u.citizen_status.getD c.citizen_status
    level_of_schooling := u.level_of_schooling.getD c.level_of_schooling
    fluent_english := u.fluent_english.getD c.fluent_english
    reading_english_scale := u.reading_english_scale.getD c.reading_english_scale
    speaking_english_scale := u.speaking_english_scale.getD c.speaking_english_scale
    writing_english_scale := u.writing_english_scale.getD c.writing_english_scale
    numeracy_scale := u.numeracy_scale.getD c.numeracy_scale
    computer_scale := u.computer_scale.getD c.computer_scale
    transportation_bool := u.transportation_bool.getD c.transportation_bool
    caregiver_bool := u.caregiver_bool.getD c.caregiver_bool
    housing := u.housing.getD c.housing
    income_source := u.income_source.getD c.income_source
    felony_bool := u.felony_bool.getD c.felony_bool
    attending_school := u.attending_school.getD c.attending_school
    currently_employed := u.currently_employed.getD c.currently_employed
    substance_use := u.substance_use.getD c.substance_use
    time_unemployed := u.time_unemployed.getD c.time_unemployed
    need_mental_health_support_bool :=
      u.need_mental_health_support_bool.getD c.need_mental_health_support_bool
    current_model :=
      match u.current_model with
      | some s => some s
      | none => c.current_model }

/-- `ClientService.update_client` (client_service.py lines 107-123):
404 if the client is absent; else apply the supplied fields to the
fetched instance and commit (rollback and 500 on commit failure). -/
def updateClient (db : Db) (cid : Nat) (u : ClientUpdate)
    (commitErr : Option String) : Except SvcError ClientRec × Db :=
  match findClient db cid with
  | none =>
    (.error (.httpEx 404 ("Client with id " ++ toString cid ++ " not found")),
     db)
  | some c =>
    match commitErr with
    | none =>
      (.ok (applyClientUpdate u c),
       { db with
          clients := mapWhere (fun x => x.id == cid) (applyClientUpdate u)
            db.clients })
    | some msg =>
      (.error (.httpEx 500 ("Failed to update client: " ++ msg)), db)

/-- The `ServiceUpdate` pydantic schema: optional intervention flags
and success rate. -/
structure ServiceUpdate where
  employment_assistance : Option Bool := none
  life_stabilization : Option Bool := none
  retention_services : Option Bool := none
  specialized_services : Option Bool := none
  employment_related_financial_supports : Option Bool := none
  employer_financial_supports : Option Bool := none
  enhanced_referrals : Option Bool := none
  success_rate : Option Int := none
deriving DecidableEq, Repr

/-- `ClientService.update_model_instance` applied to a ClientCase. -/
def applyServiceUpdate (u : ServiceUpdate) (k : CaseRec) : CaseRec :=
  { k with
    employment_assistance := u.employment_assistance.getD k.employment_assistance
    life_stabilization := u.life_stabilization.getD k.life_stabilization
    retention_services := u.retention_services.getD k.retention_services
    specialized_services := u.specialized_services.getD k.specialized_services
    employment_related_financial_supports :=
      u.employment_related_financial_supports.getD
        k.employment_related_financial_supports
    employer_financial_supports :=
      u.employer_financial_supports.getD k.employer_financial_supports
    enhanced_referrals := u.enhanced_referrals.getD k.enhanced_referrals
    success_rate := u.success_rate.getD k.success_rate }

/-- `ClientService.update_client_services` (client_service.py lines
125-143): fetch the case through `get_case_or_404nf`, apply the
supplied fields, commit. -/
def updateClientServices (db : Db) (cid uid : Nat) (u : ServiceUpdate)
    (commitErr : Option String) : Except SvcError CaseRec × Db :=
  match getCaseOr404nf db cid uid with
  | .error e => (.error e, db)
  | .ok k =>
    match commitErr with
    | none =>
      (.ok (applyServiceUpdate u k),
       { db with
          cases := mapWhere
            (fun x => x.client_id == cid && x.user_id == uid)
            (applyServiceUpdate u) db.cases })
    | some msg =>
      (.error (.httpEx 500 ("Failed to update client services: " ++ msg)),
       db)

/-- The `ModelUpdate` pydantic schema: `new_model` defaults to None. -/
structure ModelUpdate where
  new_model : Option String := none
deriving DecidableEq, Repr

/-- The dict `set_model` returns on success. -/
structure SetModelResult where
  message : String
  client_id : Nat
  current_model : Option String
deriving DecidableEq, Repr

/-- `ClientService.set_model` (client_service.py lines 206-222): 404
if the client is absent; else assign `data.new_model` (None included)
to `client.current_model`, commit, and return the success dict. -/
def setModel (db : Db) (cid : Nat) (data : ModelUpdate)
    (commitErr : Option String) : Except SvcError SetModelResult × Db :=
  match findClient db cid with
  | none =>
    (.error (.httpEx 404 ("Client with id " ++ toString cid ++ " not found")),
     db)
  | some _ =>
    match commitErr with
    | none =>
      (.ok { message := "Model updated"
             client_id := cid
             current_model := data.new_model },
       { db with
          clients := mapWhere (fun x => x.id == cid)
            (fun x => { x with current_model := data.new_model })
            db.clients })
    | some msg =>
      (.error (.httpEx 500 ("Failed to update client services: " ++ msg)),
       db)

end CAT

namespace CAT

/-- `ClientService.validate_pagination` (client_service.py lines
238-249): rejects negative skip and non-positive limit; it imposes no
upper bound on limit. -/
def validatePagination (skip limit : Int) : Except SvcError Unit :=
  if skip < 0 then
    .error (.httpEx 400 "Skip value cannot be negative")
  else if limit < 1 then
    .error (.httpEx 400 "Limit must be greater than 0")
  else .ok ()

/-- The page `get_clients` returns: the records after `skip`, at most
`limit` of them, plus the total unfiltered count. -/
structure ClientPage where
  clients : List ClientRec
  total : Nat
deriving DecidableEq, Repr

/-- `ClientService.get_clients` (client_service.py lines 25-35). -/
def getClients (db : Db) (skip limit : Int) : Except SvcError ClientPage :=
  match validatePagination skip limit with
  | .error e => .error e
  | .ok _ =>
    .ok { clients := (db.clients.drop skip.toNat).take limit.toNat
          total := db.clients.length }

/-- The `GET /clients/` operation end to end: FastAPI validates the
declared query constraints `Query(default=0, ge=0)` for skip and
`Query(default=50, ge=1, le=150)` for limit (router.py lines 31-40),
rejecting out-of-range values with a 422 before the handler (and hence
any query) runs; on valid input the handler delegates to
`ClientService.get_clients`. -/
def getClientsEndpoint (db : Db) (skip limit : Int) :
    Except SvcError ClientPage :=
  if skip < 0 then
    .error (.httpEx 422 "skip: input should be greater than or equal to 0")
  else if limit < 1 then
    .error (.httpEx 422 "limit: input should be greater than or equal to 1")
  else if 150 < limit then
    .error (.httpEx 422 "limit: input should be less than or equal to 150")
  else getClients db skip limit

/-- `ClientService.validate_criteria` (client_service.py lines
269-285): three cross-cutting bound checks, each skipped when the
criterion is absent, each raising a 400 naming the field and its
bound. -/
def validateCriteria (f : ClientFilters) : Except SvcError Unit :=
  if f.education_level.any (fun l => !(decide (1 ≤ l) && decide (l ≤ 14))) then
    .error (.httpEx 400 "Education level must be between 1 and 14")
  else if f.age_min.any (fun a => decide (a < 18)) then
    .error (.httpEx 400 "Minimum age must be at least 18")
  else if f.gender.any (fun g => !(g == 1 || g == 2)) then
    .error (.httpEx 400 "Gender must be 1 or 2")
  else .ok ()

/-- `ClientService.get_clients_by_criteria` (client_service.py lines
37-49): validate the cross-cutting bounds first, then compile and run
the selection. -/
def getClientsByCriteria (db : Db) (f : ClientFilters) :
    Except SvcError (List ClientRec) :=
  match validateCriteria f with
  | .error e => .error e
  | .ok _ => .ok (db.clients.filter (matchesFilters f))

/-- The joined rows of `db.query(Client).join(ClientCase)
.filter(ClientCase.success_rate >= min_rate)` before the legacy ORM
materialises them: one Client entity per joined (Client, ClientCase)
row that passes the rate filter. -/
def successRateJoinRows (db : Db) (minRate : Int) : List ClientRec :=
  (db.cases.filter (fun k => decide (minRate ≤ k.success_rate))).filterMap
    (fun k => db.clients.find? (fun c => c.id == k.client_id))

/-- Legacy SQLAlchemy `Query.all()` uniquing of full-entity results:
joined rows that map to the same primary key yield one entity in the
returned list, kept at its first occurrence (the documented FAQ
behaviour of 1.x-style entity queries). -/
def pkDedup (l : List ClientRec) (seen : List Nat) : List ClientRec :=
  match l with
  | [] => []
  | c :: t =>
    if seen.contains c.id then pkDedup t seen
    else c :: pkDedup t (c.id :: seen)

/-- The list `db.query(Client).join(ClientCase)
.filter(ClientCase.success_rate >= min_rate).all()` returns: the
joined entity rows uniqued by primary key. -/
def successRateJoin (db : Db) (minRate : Int) : List ClientRec :=
  pkDedup (successRateJoinRows db minRate) []

/-- `ClientService.get_clients_by_success_rate` (client_service.py
lines 81-94). -/
def getClientsBySuccessRate (db : Db) (minRate : Int) :
    Except SvcError (List ClientRec) :=
  if decide (0 ≤ minRate) && decide (minRate ≤ 100) then
    .ok (successRateJoin db minRate)
  else .error (.httpEx 400 "Success rate must be between 0 and 100")

end CAT

/-- C3: `delete_client` fails 404 when the client is absent (state
untouched); when present and the commit succeeds, the client row and
every one of its cases are removed in the single committed state
transition, other rows survive, and a subsequent read of the client or
of any of its cases is not-found; when the commit fails the whole
operation rolls back and the state is exactly the original. -/
theorem CAT.delete_client_atomic (db : CAT.Db) (cid : Nat)
    (commitErr : Option String) :
    (CAT.findClient db cid = none →
      CAT.deleteClient db cid commitErr =
        (.error (.httpEx 404
          ("Client with id " ++ toString cid ++ " not found")), db)) ∧
    (CAT.findClient db cid ≠ none →
      CAT.deleteClient db cid none =
        (.ok (),
         { clients := db.clients.filter (fun c => c.id != cid)
           cases := db.cases.filter (fun k => k.client_id != cid)
           users := db.users }) ∧
      CAT.findClient (CAT.deleteClient db cid none).2 cid = none ∧
      (∀ uid, CAT.findCase (CAT.deleteClient db cid none).2 cid uid = none) ∧
      (∀ k, k ∈ db.cases → k.client_id ≠ cid →
        k ∈ (CAT.deleteClient db cid none).2.cases) ∧
      (∀ c, c ∈ db.clients → c.id ≠ cid →
        c ∈ (CAT.deleteClient db cid none).2.clients)) ∧
    (∀ msg, CAT.findClient db cid ≠ none →
      CAT.deleteClient db cid (some msg) =
        (.error (.httpEx 500 ("Failed to delete client: " ++ msg)), db)) := by
  refine ⟨?_, ?_, ?_⟩
  · intro h
    simp [CAT.deleteClient, h]
  · intro h
    obtain ⟨c, hc⟩ := Option.ne_none_iff_exists'.mp h
    have hf : List.find? (fun x => x.id == cid) db.clients = some c := hc
    refine ⟨by simp [CAT.deleteClient, CAT.findClient, hf], ?_, ?_, ?_, ?_⟩
    · simp [CAT.deleteClient, CAT.findClient, hf, List.find?_eq_none,
        List.mem_filter]
    · intro uid
      simp [CAT.deleteClient, CAT.findClient, hf, CAT.findCase,
        List.find?_eq_none, List.mem_filter]
      exact fun k _ h1 h2 => absurd h2 h1
    · intro k hk hne
      simp [CAT.deleteClient, CAT.findClient, hf, List.mem_filter, hk, hne]
    · intro c2 hc2 hne
      simp [CAT.deleteClient, CAT.findClient, hf, List.mem_filter, hc2, hne]
  · intro msg h
    obtain ⟨c, hc⟩ := Option.ne_none_iff_exists'.mp h
    have hf : List.find? (fun x => x.id == cid) db.clients = some c := hc
    simp [CAT.deleteClient, CAT.findClient, hf]

/-- A store with one client (id 1) owning three cases. -/
def CAT.w3db : CAT.Db :=
  { clients := [CAT.exampleFemaleClient]
    cases := [CAT.newCaseRec 1 2, CAT.newCaseRec 1 3, CAT.newCaseRec 1 4]
    users := [2, 3, 4] }

/-- Witness for C3: deleting client 1 from a store where it owns three
cases removes the client and all three cases in the committed state. -/
theorem CAT.delete_client_atomic_witness :
    CAT.deleteClient CAT.w3db 1 none =
      (.ok (),
       { clients := CAT.w3db.clients.filter (fun c => c.id != 1)
         cases := CAT.w3db.cases.filter (fun k => k.client_id != 1)
         users := CAT.w3db.users }) ∧
    CAT.findClient (CAT.deleteClient CAT.w3db 1 none).2 1 = none ∧
    CAT.findCase (CAT.deleteClient CAT.w3db 1 none).2 1 2 = none :=
  have h := (CAT.delete_client_atomic CAT.w3db 1 none).2.1 (by decide)
  ⟨h.1, h.2.1, h.2.2.1 2⟩

/-- C4: `create_case_assignment` fails 404 when the client or the case
worker is absent, fails 400 (conflict) when a case already exists for
the pair, and otherwise appends exactly one new case whose seven
intervention flags are all false and whose success rate is 0. -/
theorem CAT.create_case_assignment_correct (db : CAT.Db) (cid uid : Nat) :
    (CAT.findClient db cid = none → ∀ commitErr,
      CAT.createCaseAssignment db cid uid commitErr =
        (.error (.httpEx 404
          ("Client with id " ++ toString cid ++ " not found")), db)) ∧
    (CAT.findClient db cid ≠ none → db.users.contains uid = false →
      ∀ commitErr,
      CAT.createCaseAssignment db cid uid commitErr =
        (.error (.httpEx 404
          ("Case worker with id " ++ toString uid ++ " not found")), db)) ∧
    (CAT.findClient db cid ≠ none → db.users.contains uid = true →
      CAT.findCase db cid uid ≠ none → ∀ commitErr,
      CAT.createCaseAssignment db cid uid commitErr =
        (.error (.httpEx 400
          ("Client " ++ toString cid ++
            " already has a case assigned to case worker " ++ toString uid)),
         db)) ∧
    (CAT.findClient db cid ≠ none → db.users.contains uid = true →
      CAT.findCase db cid uid = none →
      CAT.createCaseAssignment db cid uid none =
        (.ok (CAT.newCaseRec cid uid),
         { db with cases := db.cases ++ [CAT.newCaseRec cid uid] }) ∧
      (CAT.newCaseRec cid uid).employment_assistance = false ∧
      (CAT.newCaseRec cid uid).life_stabilization = false ∧
      (CAT.newCaseRec cid uid).retention_services = false ∧
      (CAT.newCaseRec cid uid).specialized_services = false ∧
      (CAT.newCaseRec cid uid).employment_related_financial_supports = false ∧
      (CAT.newCaseRec cid uid).employer_financial_supports = false ∧
      (CAT.newCaseRec cid uid).enhanced_referrals = false ∧
      (CAT.newCaseRec cid uid).success_rate = 0) := by
  refine ⟨?_, ?_, ?_, ?_⟩
  · intro h commitErr
    simp [CAT.createCaseAssignment, CAT.getClientOr404, h]
  · intro h hw commitErr
    obtain ⟨c, hc⟩ := Option.ne_none_iff_exists'.mp h
    have hw2 : uid ∉ db.users := by simpa using hw
    simp [CAT.createCaseAssignment, CAT.getClientOr404, hc,
      CAT.getCaseworkerOr404, hw2]
  · intro h hw hk commitErr
    obtain ⟨c, hc⟩ := Option.ne_none_iff_exists'.mp h
    obtain ⟨k, hkk⟩ := Option.ne_none_iff_exists'.mp hk
    have hw2 : uid ∈ db.users := by simpa using hw
    simp [CAT.createCaseAssignment, CAT.getClientOr404, hc,
      CAT.getCaseworkerOr404, hw2, hkk]
  · intro h hw hk
    obtain ⟨c, hc⟩ := Option.ne_none_iff_exists'.mp h
    have hw2 : uid ∈ db.users := by simpa using hw
    simp [CAT.createCaseAssignment, CAT.getClientOr404, hc,
      CAT.getCaseworkerOr404, hw2, hk, CAT.newCaseRec]

/-- Witness for C4: in a store with client 1, worker 2 and no cases,
the assignment succeeds with the default-valued case; repeating it on
the resulting store fails with the duplicate-assignment 400. -/
theorem CAT.create_case_assignment_correct_witness :
    CAT.createCaseAssignment
        { clients := [CAT.exampleFemaleClient], cases := [], users := [2] }
        1 2 none =
      (.ok (CAT.newCaseRec 1 2),
       { clients := [CAT.exampleFemaleClient]
         cases := [CAT.newCaseRec 1 2]
         users := [2] }) ∧
    CAT.createCaseAssignment
        { clients := [CAT.exampleFemaleClient]
          cases := [CAT.newCaseRec 1 2]
          users := [2] }
        1 2 none =
      (.error (.httpEx 400
        ("Client " ++ toString 1 ++
          " already has a case assigned to case worker " ++ toString 2)),
       { clients := [CAT.exampleFemaleClient]
         cases := [CAT.newCaseRec 1 2]
         users := [2] }) :=
  ⟨((CAT.create_case_assignment_correct
      { clients := [CAT.exampleFemaleClient], cases := [], users := [2] }
      1 2).2.2.2 (by decide) (by decide) (by decide)).1,
   (CAT.create_case_assignment_correct
      { clients := [CAT.exampleFemaleClient]
        cases := [CAT.newCaseRec 1 2]
        users := [2] }
      1 2).2.2.1 (by decide) (by decide) (by decide) none⟩

/-- C5: the claim states a missing (client, worker) assignment makes
`update_client_services` fail with a machine-checkable not-found error.
Evaluated on a store holding client 1 and worker 2 but no case for the
pair: the failure raised is the `NameError` on the unresolved bare
identifier `HTTP_404_NOT_FOUND` in `get_case_or_404nf`, not an
`HTTPException` carrying a 404 status. -/
theorem CAT.update_services_missing_case_raises_name_error :
    CAT.updateClientServices
        { clients := [CAT.exampleFemaleClient], cases := [], users := [2] }
        1 2 {} none =
      (.error (.nameErr "HTTP_404_NOT_FOUND"),
       { clients := [CAT.exampleFemaleClient], cases := [], users := [2] }) :=
  rfl

/-- C6: the paginated list endpoint rejects skip < 0, limit < 1 and
limit > 150 (limit = 151 included) with a router validation failure
and no page is produced; on in-range input it returns the page of at
most `limit` records starting after `skip` together with the total
unfiltered count. -/
theorem CAT.get_clients_pagination_correct (db : CAT.Db)
    (skip limit : Int) :
    (skip < 0 →
      CAT.getClientsEndpoint db skip limit =
        .error (.httpEx 422
          "skip: input should be greater than or equal to 0")) ∧
    (0 ≤ skip → limit < 1 →
      CAT.getClientsEndpoint db skip limit =
        .error (.httpEx 422
          "limit: input should be greater than or equal to 1")) ∧
    (0 ≤ skip → 150 < limit →
      CAT.getClientsEndpoint db skip limit =
        .error (.httpEx 422
          "limit: input should be less than or equal to 150")) ∧
    (0 ≤ skip → 1 ≤ limit → limit ≤ 150 →
      CAT.getClientsEndpoint db skip limit =
        .ok { clients := (db.clients.drop skip.toNat).take limit.toNat
              total := db.clients.length } ∧
      ((db.clients.drop skip.toNat).take limit.toNat).length ≤
        limit.toNat) := by
  refine ⟨?_, ?_, ?_, ?_⟩
  · intro h
    simp [CAT.getClientsEndpoint, h]
  · intro h0 h1
    have hn : ¬ skip < 0 := by omega
    simp [CAT.getClientsEndpoint, hn, h1]
  · intro h0 h1
    have hn : ¬ skip < 0 := by omega
    have hn1 : ¬ limit < 1 := by omega
    simp [CAT.getClientsEndpoint, hn, hn1, h1]
  · intro h0 h1 h2
    have hn : ¬ skip < 0 := by omega
    have hn1 : ¬ limit < 1 := by omega
    have hn2 : ¬ 150 < limit := by omega
    exact ⟨by simp [CAT.getClientsEndpoint, CAT.getClients,
        CAT.validatePagination, hn, hn1, hn2],
      List.length_take_le _ _⟩

/-- Witness for C6: on a store of two clients, limit = 151 is rejected
by validation, and skip = 0, limit = 1 returns a one-record page with
total 2. -/
theorem CAT.get_clients_pagination_correct_witness :
    CAT.getClientsEndpoint
        { clients := [CAT.exampleFemaleClient,
            { CAT.exampleFemaleClient with id := 2 }],
          cases := [], users := [] } 0 151 =
      .error (.httpEx 422
        "limit: input should be less than or equal to 150") ∧
    CAT.getClientsEndpoint
        { clients := [CAT.exampleFemaleClient,
            { CAT.exampleFemaleClient with id := 2 }],
          cases := [], users := [] } 0 1 =
      .ok { clients := [CAT.exampleFemaleClient], total := 2 } :=
  ⟨(CAT.get_clients_pagination_correct _ 0 151).2.2.1 (by decide) (by decide),
   by
    have h := ((CAT.get_clients_pagination_correct
      { clients := [CAT.exampleFemaleClient,
          { CAT.exampleFemaleClient with id := 2 }],
        cases := [], users := [] } 0 1).2.2.2
      (by decide) (by decide) (by decide)).1
    simpa using h⟩

/-- C7: before the filter is compiled, a present education_level
outside [1,14], a present age_min below 18, or a present gender
outside {1,2} fail with a 400 naming the field and its bound, and the
criteria search returns that error without producing any result set;
when the three criteria are absent no validation failure occurs and
the compiled selection runs. -/
theorem CAT.validate_criteria_correct (db : CAT.Db)
    (f : CAT.ClientFilters) :
    (∀ v, f.education_level = some v → ¬(1 ≤ v ∧ v ≤ 14) →
      CAT.validateCriteria f =
        .error (.httpEx 400 "Education level must be between 1 and 14") ∧
      CAT.getClientsByCriteria db f =
        .error (.httpEx 400 "Education level must be between 1 and 14")) ∧
    ((∀ v, f.education_level = some v → 1 ≤ v ∧ v ≤ 14) →
      ∀ v, f.age_min = some v → v < 18 →
      CAT.validateCriteria f =
        .error (.httpEx 400 "Minimum age must be at least 18") ∧
      CAT.getClientsByCriteria db f =
        .error (.httpEx 400 "Minimum age must be at least 18")) ∧
    ((∀ v, f.education_level = some v → 1 ≤ v ∧ v ≤ 14) →
      (∀ v, f.age_min = some v → 18 ≤ v) →
      ∀ v, f.gender = some v → ¬(v = 1 ∨ v = 2) →
      CAT.validateCriteria f =
        .error (.httpEx 400 "Gender must be 1 or 2") ∧
      CAT.getClientsByCriteria db f =
        .error (.httpEx 400 "Gender must be 1 or 2")) ∧
    (f.education_level = none → f.age_min = none → f.gender = none →
      CAT.validateCriteria f = .ok () ∧
      CAT.getClientsByCriteria db f =
        .ok (db.clients.filter (CAT.matchesFilters f))) := by
  refine ⟨?_, ?_, ?_, ?_⟩
  · intro v hv hbad
    have hcond : (f.education_level.any
        fun l => !(decide (1 ≤ l) && decide (l ≤ 14))) = true := by
      simp [hv, decide_eq_true_iff]
      omega
    constructor
    · simp only [CAT.validateCriteria, hcond]
      simp
    · simp only [CAT.getClientsByCriteria, CAT.validateCriteria, hcond]
      simp
  · intro edOk v hv hbad
    have h1 : (f.education_level.any
        fun l => !(decide (1 ≤ l) && decide (l ≤ 14))) = false := by
      cases he : f.education_level with
      | none => rfl
      | some l =>
        have := edOk l he
        simp [decide_eq_true_iff]
        omega
    have h2 : (f.age_min.any fun a => decide (a < 18)) = true := by
      simp [hv]
      omega
    constructor
    · simp only [CAT.validateCriteria, h1, h2]
      simp
    · simp only [CAT.getClientsByCriteria, CAT.validateCriteria, h1, h2]
      simp
  · intro edOk ageOk v hv hbad
    have h1 : (f.education_level.any
        fun l => !(decide (1 ≤ l) && decide (l ≤ 14))) = false := by
      cases he : f.education_level with
      | none => rfl
      | some l =>
        have := edOk l he
        simp [decide_eq_true_iff]
        omega
    have h2 : (f.age_min.any fun a => decide (a < 18)) = false := by
      cases ha : f.age_min with
      | none => rfl
      | some a =>
        have := ageOk a ha
        simp [decide_eq_true_iff]
        omega
    have h3 : (f.gender.any fun g => !(g == 1 || g == 2)) = true := by
      simp [hv]
      omega
    constructor
    · simp only [CAT.validateCriteria, h1, h2, h3]
      simp
    · simp only [CAT.getClientsByCriteria, CAT.validateCriteria, h1, h2, h3]
      simp
  · intro he ha hg
    constructor
    · simp only [CAT.validateCriteria, he, ha, hg]
      simp
    · simp only [CAT.getClientsByCriteria, CAT.validateCriteria, he, ha, hg]
      simp

/-- Witness for C7: education_level = 15 is rejected naming that
field; with the three criteria absent the selection runs. -/
theorem CAT.validate_criteria_correct_witness :
    CAT.validateCriteria { education_level := some 15 } =
      .error (.httpEx 400 "Education level must be between 1 and 14") ∧
    CAT.validateCriteria CAT.emptyFilters = .ok () :=
  ⟨((CAT.validate_criteria_correct
      { clients := [], cases := [], users := [] }
      { education_level := some 15 }).1 15 rfl (by decide)).1,
   ((CAT.validate_criteria_correct
      { clients := [], cases := [], users := [] }
      CAT.emptyFilters).2.2.2 rfl rfl rfl).1⟩

/-- C8: `update_client` assigns exactly the fields present in the
payload onto the stored record: every field supplied as `some v`
becomes `v`, every absent field keeps its previous value (the empty
payload leaves the record identical), and the committed state replaces
only the addressed client row with the updated record. -/
theorem CAT.update_client_partial_correct (db : CAT.Db) (cid : Nat)
    (u : CAT.ClientUpdate) (c : CAT.ClientRec)
    (h : CAT.findClient db cid = some c) :
    CAT.updateClient db cid u none =
      (.ok (CAT.applyClientUpdate u c),
       { db with
         clients := CAT.mapWhere (fun x => x.id == cid)
                      (CAT.applyClientUpdate u) db.clients }) ∧
    CAT.applyClientUpdate {} c = c ∧
    (CAT.applyClientUpdate u c).id = c.id ∧
    (u.age = none → (CAT.applyClientUpdate u c).age = c.age) ∧
    (∀ v, u.age = some v → (CAT.applyClientUpdate u c).age = v) ∧
    (u.gender = none → (CAT.applyClientUpdate u c).gender = c.gender) ∧
    (∀ v, u.gender = some v → (CAT.applyClientUpdate u c).gender = v) ∧
    (u.work_experience = none → (CAT.applyClientUpdate u c).work_experience = c.work_experience) ∧
    (∀ v, u.work_experience = some v → (CAT.applyClientUpdate u c).work_experience = v) ∧
    (u.canada_workex = none → (CAT.applyClientUpdate u c).canada_workex = c.canada_workex) ∧
    (∀ v, u.canada_workex = some v → (CAT.applyClientUpdate u c).canada_workex = v) ∧
    (u.dep_num = none → (CAT.applyClientUpdate u c).dep_num = c.dep_num) ∧
    (∀ v, u.dep_num = some v → (CAT.applyClientUpdate u c).dep_num = v) ∧
    (u.canada_born = none → (CAT.applyClientUpdate u c).canada_born = c.canada_born) ∧
    (∀ v, u.canada_born = some v → (CAT.applyClientUpdate u c).canada_born = v) ∧
    (u.citizen_status = none → (CAT.applyClientUpdate u c).citizen_status = c.citizen_status) ∧
    (∀ v, u.citizen_status = some v → (CAT.applyClientUpdate u c).citizen_status = v) ∧
    (u.level_of_schooling = none → (CAT.applyClientUpdate u c).level_of_schooling = c.level_of_schooling) ∧
    (∀ v, u.level_of_schooling = some v → (CAT.applyClientUpdate u c).level_of_schooling = v) ∧
    (u.fluent_english = none → (CAT.applyClientUpdate u c).fluent_english = c.fluent_english) ∧
    (∀ v, u.fluent_english = some v → (CAT.applyClientUpdate u c).fluent_english = v) ∧
    (u.reading_english_scale = none → (CAT.applyClientUpdate u c).reading_english_scale = c.reading_english_scale) ∧
    (∀ v, u.reading_english_scale = some v → (CAT.applyClientUpdate u c).reading_english_scale = v) ∧
    (u.speaking_english_scale = none → (CAT.applyClientUpdate u c).speaking_english_scale = c.speaking_english_scale) ∧
    (∀ v, u.speaking_english_scale = some v → (CAT.applyClientUpdate u c).speaking_english_scale = v) ∧
    (u.writing_english_scale = none → (CAT.applyClientUpdate u c).writing_english_scale = c.writing_english_scale) ∧
    (∀ v, u.writing_english_scale = some v → (CAT.applyClientUpdate u c).writing_english_scale = v) ∧
    (u.numeracy_scale = none → (CAT.applyClientUpdate u c).numeracy_scale = c.numeracy_scale) ∧
    (∀ v, u.numeracy_scale = some v → (CAT.applyClientUpdate u c).numeracy_scale = v) ∧
    (u.computer_scale = none → (CAT.applyClientUpdate u c).computer_scale = c.computer_scale) ∧
    (∀ v, u.computer_scale = some v → (CAT.applyClientUpdate u c).computer_scale = v) ∧
    (u.transportation_bool = none → (CAT.applyClientUpdate u c).transportation_bool = c.transportation_bool) ∧
    (∀ v, u.transportation_bool = some v → (CAT.applyClientUpdate u c).transportation_bool = v) ∧
    (u.caregiver_bool = none → (CAT.applyClientUpdate u c).caregiver_bool = c.caregiver_bool) ∧
    (∀ v, u.caregiver_bool = some v → (CAT.applyClientUpdate u c).caregiver_bool = v) ∧
    (u.housing = none → (CAT.applyClientUpdate u c).housing = c.housing) ∧
    (∀ v, u.housing = some v → (CAT.applyClientUpdate u c).housing = v) ∧
    (u.income_source = none → (CAT.applyClientUpdate u c).income_source = c.income_source) ∧
    (∀ v, u.income_source = some v → (CAT.applyClientUpdate u c).income_source = v) ∧
    (u.felony_bool = none → (CAT.applyClientUpdate u c).felony_bool = c.felony_bool) ∧
    (∀ v, u.felony_bool = some v → (CAT.applyClientUpdate u c).felony_bool = v) ∧
    (u.attending_school = none → (CAT.applyClientUpdate u c).attending_school = c.attending_school) ∧
    (∀ v, u.attending_school = some v → (CAT.applyClientUpdate u c).attending_school = v) ∧
    (u.currently_employed = none → (CAT.applyClientUpdate u c).currently_employed = c.currently_employed) ∧
    (∀ v, u.currently_employed = some v → (CAT.applyClientUpdate u c).currently_employed = v) ∧
    (u.substance_use = none → (CAT.applyClientUpdate u c).substance_use = c.substance_use) ∧
    (∀ v, u.substance_use = some v → (CAT.applyClientUpdate u c).substance_use = v) ∧
    (u.time_unemployed = none → (CAT.applyClientUpdate u c).time_unemployed = c.time_unemployed) ∧
    (∀ v, u.time_unemployed = some v → (CAT.applyClientUpdate u c).time_unemployed = v) ∧
    (u.need_mental_health_support_bool = none → (CAT.applyClientUpdate u c).need_mental_health_support_bool = c.need_mental_health_support_bool) ∧
    (∀ v, u.need_mental_health_support_bool = some v → (CAT.applyClientUpdate u c).need_mental_health_support_bool = v) ∧
    (u.current_model = none →
      (CAT.applyClientUpdate u c).current_model = c.current_model) ∧
    (∀ v, u.current_model = some v →
      (CAT.applyClientUpdate u c).current_model = some v) := by
  have hf : List.find? (fun x => x.id == cid) db.clients = some c := h
  refine ⟨by simp [CAT.updateClient, CAT.findClient, hf], ?_⟩
  simp +contextual [CAT.applyClientUpdate]

/-- Witness for C8: updating only `age` on a stored client changes
`age` to the supplied value and leaves `gender` untouched. -/
theorem CAT.update_client_partial_correct_witness :
    CAT.updateClient
        { clients := [CAT.exampleFemaleClient], cases := [], users := [] }
        1 { age := some 30 } none =
      (.ok (CAT.applyClientUpdate { age := some 30 } CAT.exampleFemaleClient),
       { clients := CAT.mapWhere (fun x => x.id == 1)
                      (CAT.applyClientUpdate { age := some 30 })
                      [CAT.exampleFemaleClient]
         cases := []
         users := [] }) ∧
    (CAT.applyClientUpdate { age := some 30 } CAT.exampleFemaleClient).age
      = 30 ∧
    (CAT.applyClientUpdate { age := some 30 } CAT.exampleFemaleClient).gender
      = CAT.exampleFemaleClient.gender :=
  have h := CAT.update_client_partial_correct
    { clients := [CAT.exampleFemaleClient], cases := [], users := [] }
    1 { age := some 30 } CAT.exampleFemaleClient (by decide)
  ⟨h.1, h.2.2.2.2.1 30 rfl, h.2.2.2.2.2.1 rfl⟩

/-- Finding by id after replacing the row with that id: if `g`
preserves ids, the lookup returns the image of the previously found
row. -/
theorem CAT.find_mapWhere_id {l : List CAT.ClientRec} {cid : Nat}
    {c : CAT.ClientRec} {g : CAT.ClientRec → CAT.ClientRec}
    (hg : ∀ x, (g x).id = x.id)
    (h : l.find? (fun x => x.id == cid) = some c) :
    (CAT.mapWhere (fun x => x.id == cid) g l).find?
        (fun x => x.id == cid) = some (g c) := by
  induction l with
  | nil => simp at h
  | cons a t ih =>
    have hstep : CAT.mapWhere (fun x => x.id == cid) g (a :: t) =
        (if (a.id == cid) then g a else a) ::
          CAT.mapWhere (fun x => x.id == cid) g t := rfl
    by_cases hp : a.id = cid
    · have hac : a = c := by
        have hfind : List.find? (fun x => x.id == cid) (a :: t) = some a :=
          List.find?_cons_of_pos _ (by simpa using hp)
        rw [hfind] at h
        simpa using h
      subst hac
      rw [hstep]
      have hhead := List.find?_cons_of_pos (p := fun x => x.id == cid)
        (CAT.mapWhere (fun x => x.id == cid) g t)
        (a := if (a.id == cid) then g a else a) (by simp [hp, hg])
      rw [hhead]
      simp [hp]
    · have h2 : List.find? (fun x => x.id == cid) t = some c := by
        rwa [List.find?_cons_of_neg _ (by simp [hp])] at h
      rw [hstep]
      rw [List.find?_cons_of_neg _ (by simp [hp])]
      exact ih h2

/-- C9: `set_model` with a payload whose `new_model` is omitted (None)
does not reject the request: it succeeds, reports "Model updated", and
rewrites the stored client's `current_model` binding to None. -/
theorem CAT.set_model_none_clears_binding (db : CAT.Db) (cid : Nat)
    (c : CAT.ClientRec) (h : CAT.findClient db cid = some c) :
    CAT.setModel db cid {} none =
      (.ok { message := "Model updated"
             client_id := cid
             current_model := none },
       { db with
         clients := CAT.mapWhere (fun x => x.id == cid)
                      (fun x => { x with current_model := none })
                      db.clients }) ∧
    CAT.findClient (CAT.setModel db cid {} none).2 cid =
      some { c with current_model := none } := by
  have hf : List.find? (fun x => x.id == cid) db.clients = some c := h
  have hs : CAT.setModel db cid {} none =
      (.ok { message := "Model updated"
             client_id := cid
             current_model := none },
       { db with
         clients := CAT.mapWhere (fun x => x.id == cid)
                      (fun x => { x with current_model := none })
                      db.clients }) := by
    simp [CAT.setModel, h, CAT.mapWhere]
  refine ⟨hs, ?_⟩
  rw [hs]
  exact CAT.find_mapWhere_id (fun x => rfl) hf

/-- Witness for C9: clearing the binding of the stored client 1, whose
previous binding was "RandomForest". -/
theorem CAT.set_model_none_clears_binding_witness :
    CAT.setModel
        { clients := [CAT.exampleFemaleClient], cases := [], users := [] }
        1 {} none =
      (.ok { message := "Model updated"
             client_id := 1
             current_model := none },
       { clients := CAT.mapWhere (fun x => x.id == 1)
                      (fun x => { x with current_model := none })
                      [CAT.exampleFemaleClient]
         cases := []
         users := [] }) ∧
    CAT.findClient
        (CAT.setModel
          { clients := [CAT.exampleFemaleClient], cases := [], users := [] }
          1 {} none).2 1 =
      some { CAT.exampleFemaleClient with current_model := none } :=
  CAT.set_model_none_clears_binding
    { clients := [CAT.exampleFemaleClient], cases := [], users := [] }
    1 CAT.exampleFemaleClient (by decide)

theorem count_filterMap_eq_countP {α β : Type} [DecidableEq α]
    [DecidableEq β] (g : α → Option β) (b : β) (l : List α) :
    (l.filterMap g).count b = l.countP (fun a => g a == some b) := by
  induction l with
  | nil => rfl
  | cons a t ih =>
    cases hga : g a with
    | none => simp [List.filterMap_cons, hga, List.countP_cons, ih]
    | some val =>
      simp [List.filterMap_cons, hga, List.count_cons, List.countP_cons, ih,
        beq_iff_eq]

theorem find_by_id_iff (l : List CAT.ClientRec)
    (hn : (l.map (fun x => x.id)).Nodup) (c : CAT.ClientRec)
    (hc : c ∈ l) (t : Nat) :
    l.find? (fun x => x.id == t) = some c ↔ t = c.id := by
  constructor
  · intro hfind
    have hx := List.find?_some hfind
    simp at hx
    omega
  · intro ht
    subst ht
    cases hfind : l.find? (fun x => x.id == c.id) with
    | none =>
      exfalso
      have := List.find?_eq_none.mp hfind c hc
      simp at this
    | some x =>
      have hx1 : x ∈ l := List.mem_of_find?_eq_some hfind
      have hx2 := List.find?_some hfind
      have hx3 : x.id = c.id := by simpa using hx2
      have hxc : x = c := List.inj_on_of_nodup_map hn hx1 hc hx3
      exact congrArg some hxc

theorem countP_congr_mem {α : Type} {p q : α → Bool} {l : List α}
    (h : ∀ a ∈ l, p a = q a) : l.countP p = l.countP q := by
  induction l with
  | nil => rfl
  | cons a t ih =>
    rw [List.countP_cons, List.countP_cons, h a (List.mem_cons_self a t),
      ih fun x hx => h x (List.mem_cons_of_mem a hx)]


theorem pkDedup_subset (l : List CAT.ClientRec) (seen : List Nat) :
    ∀ x ∈ CAT.pkDedup l seen, x ∈ l := by
  induction l generalizing seen with
  | nil => simp [CAT.pkDedup]
  | cons a t ih =>
    intro x hx
    by_cases hs : seen.contains a.id
    · simp only [CAT.pkDedup, if_pos hs] at hx
      exact List.mem_cons_of_mem a (ih seen x hx)
    · simp only [CAT.pkDedup, if_neg hs] at hx
      rcases List.mem_cons.mp hx with h | h
    
      · exact h ▸ List.mem_cons_self a t
      · exact List.mem_cons_of_mem a (ih (a.id :: seen) x h)

theorem successRateJoinRows_id_det (db : CAT.Db) (minRate : Int) :
    ∀ x ∈ CAT.successRateJoinRows db minRate,
      ∀ y ∈ CAT.successRateJoinRows db minRate, x.id = y.id → x = y := by
  intro x hx y hy hxy
  obtain ⟨k1, _, hg1⟩ := List.mem_filterMap.mp hx
  obtain ⟨k2, _, hg2⟩ := List.mem_filterMap.mp hy
  have h1 : x.id = k1.client_id := by simpa using List.find?_some hg1
  have h2 : y.id = k2.client_id := by simpa using List.find?_some hg2
  have hk : k1.client_id = k2.client_id := by omega
  rw [hk] at hg1
  exact Option.some.inj (hg1.symm.trans hg2)

theorem pkDedup_count (l : List CAT.ClientRec) (seen : List Nat)
    (c : CAT.ClientRec)
    (hdet : ∀ x ∈ l, ∀ y ∈ l, x.id = y.id → x = y) :
    (CAT.pkDedup l seen).count c =
      if c ∈ l ∧ c.id ∉ seen then 1 else 0 := by
  induction l generalizing seen with
  | nil => simp [CAT.pkDedup]
  | cons a t ih =>
    have hdet2 : ∀ x ∈ t, ∀ y ∈ t, x.id = y.id → x = y :=
      fun x hx y hy =>
        hdet x (List.mem_cons_of_mem a hx) y (List.mem_cons_of_mem a hy)
    by_cases hs : a.id ∈ seen
    · rw [show CAT.pkDedup (a :: t) seen = CAT.pkDedup t seen by
        simp [CAT.pkDedup, hs]]
      rw [ih seen hdet2]
      by_cases hac : c = a
      · subst hac
        simp [hs]
      · simp [List.mem_cons, hac]
    · rw [show CAT.pkDedup (a :: t) seen =
          a :: CAT.pkDedup t (a.id :: seen) by simp [CAT.pkDedup, hs]]
      rw [List.count_cons, ih (a.id :: seen) hdet2]
      by_cases hac : c = a
      · subst hac
        simp [hs, List.mem_cons]
      · have hhead : (a == c) = false := by
          simp only [beq_eq_false_iff_ne, ne_eq]
          exact fun h => hac h.symm
        by_cases hct : c ∈ t
        · have hne : c.id ≠ a.id := fun he =>
            hac (hdet c (List.mem_cons_of_mem a hct) a
              (List.mem_cons_self a t) he)
          simp [hct, hac, hne, hhead, List.mem_cons]
        · simp [hct, hac, hhead, List.mem_cons]

theorem successRateJoinRows_mem_iff (db : CAT.Db) (minRate : Int)
    (c : CAT.ClientRec) (hn : (db.clients.map (fun x => x.id)).Nodup)
    (hc : c ∈ db.clients) :
    c ∈ CAT.successRateJoinRows db minRate ↔
      (db.cases.any (fun k =>
        decide (minRate ≤ k.success_rate) && (k.client_id == c.id)))
        = true := by
  constructor
  · intro hm
    obtain ⟨k, hk, hg⟩ := List.mem_filterMap.mp hm
    have hk2 := List.mem_filter.mp hk
    have hid : k.client_id = c.id :=
      (find_by_id_iff db.clients hn c hc k.client_id).mp hg
    refine List.any_eq_true.mpr ⟨k, hk2.1, ?_⟩
    have hrate := hk2.2
    simp at hrate
    simp [hid, hrate]
  · intro ha
    obtain ⟨k, hk, hcond⟩ := List.any_eq_true.mp ha
    simp at hcond
    refine List.mem_filterMap.mpr ⟨k, ?_, ?_⟩
    · exact List.mem_filter.mpr ⟨hk, by simpa using hcond.1⟩
    · exact (find_by_id_iff db.clients hn c hc k.client_id).mpr hcond.2

/-- A store with two clients where client 1 has two qualifying cases
(rates 80 and 90) and client 2 has none. -/
def CAT.wJoinDb : CAT.Db :=
  { clients := [CAT.exampleFemaleClient,
      { CAT.exampleFemaleClient with id := 2 }]
    cases := [{ CAT.newCaseRec 1 2 with success_rate := 80 },
              { CAT.newCaseRec 1 3 with success_rate := 90 }]
    users := [2, 3] }

/-- C10 counterexample: the claim's multiplicity clause says a client
appears once per case at or above the threshold. At threshold 70,
client 1 has two such cases, yet the returned entity list — joined
rows uniqued by primary key, as the legacy ORM `Query.all()` does for
full-entity results — contains it exactly once. -/
theorem CAT.success_rate_join_no_dedup_refuted :
    (CAT.wJoinDb.cases.filter (fun k =>
      decide ((70 : Int) ≤ k.success_rate) &&
        (k.client_id == CAT.exampleFemaleClient.id))).length = 2 ∧
    (CAT.successRateJoin CAT.wJoinDb 70).count CAT.exampleFemaleClient = 1 ∧
    CAT.getClientsBySuccessRate CAT.wJoinDb 70 =
      .ok (CAT.successRateJoin CAT.wJoinDb 70) :=
  ⟨by decide, by decide, rfl⟩

/-- C10 (amended): the success-rate search inner-joins Client to
ClientCase and the legacy ORM deduplicates the full-entity result rows
by primary key: a client occurs exactly once in the returned list iff
it has at least one case with success_rate at or above `minRate`
(regardless of how many such cases it has), and a client with no case
rows never occurs, even with `minRate = 0`. -/
theorem CAT.success_rate_join_dedup_multiplicity (db : CAT.Db)
    (minRate : Int) (c : CAT.ClientRec) (h0 : 0 ≤ minRate)
    (h1 : minRate ≤ 100) (hn : (db.clients.map (fun x => x.id)).Nodup)
    (hc : c ∈ db.clients) :
    CAT.getClientsBySuccessRate db minRate =
      .ok (CAT.successRateJoin db minRate) ∧
    (CAT.successRateJoin db minRate).count c =
      (if (db.cases.any (fun k =>
          decide (minRate ≤ k.success_rate) && (k.client_id == c.id)))
        then 1 else 0) ∧
    ((∀ k ∈ db.cases, k.client_id ≠ c.id) →
      c ∉ CAT.successRateJoin db minRate) := by
  refine ⟨?_, ?_, ?_⟩
  · simp [CAT.getClientsBySuccessRate, h0, h1]
  · rw [CAT.successRateJoin,
      pkDedup_count _ _ _ (successRateJoinRows_id_det db minRate)]
    have hiff := successRateJoinRows_mem_iff db minRate c hn hc
    by_cases hm : c ∈ CAT.successRateJoinRows db minRate
    · simp [hm, hiff.mp hm]
    · have hnot : ¬ (db.cases.any (fun k =>
          decide (minRate ≤ k.success_rate) && (k.client_id == c.id)))
            = true := fun h => hm (hiff.mpr h)
      simp [hm, hnot]
  · intro hno hmem
    have hrows := pkDedup_subset _ _ c hmem
    obtain ⟨k, hk, hg⟩ := List.mem_filterMap.mp hrows
    have hk2 : k ∈ db.cases := (List.mem_filter.mp hk).1
    exact hno k hk2 ((find_by_id_iff db.clients hn c hc k.client_id).mp hg)

/-- Witness for the amended C10: with threshold 70, client 1 (two
qualifying cases) appears exactly once in the returned list, and
caseless client 2 does not appear even at threshold 0. -/
theorem CAT.success_rate_join_dedup_multiplicity_witness :
    (CAT.successRateJoin CAT.wJoinDb 70).count CAT.exampleFemaleClient = 1 ∧
    { CAT.exampleFemaleClient with id := 2 } ∉
      CAT.successRateJoin CAT.wJoinDb 0 :=
  ⟨((CAT.success_rate_join_dedup_multiplicity CAT.wJoinDb 70
      CAT.exampleFemaleClient (by decide) (by decide) (by decide)
      (by decide)).2.1).trans (by decide),
   (CAT.success_rate_join_dedup_multiplicity CAT.wJoinDb 0
      { CAT.exampleFemaleClient with id := 2 } (by decide) (by decide)
      (by decide) (by decide)).2.2 (by decide)⟩
